import Mathlib

/-
Verification development for the giza documentation-tools repository:
a shallow embedding, in Lean 4, of the repository-synchronization engine
(giza/content/assets.py, giza/core/git.py) and the idempotent file
materializer (giza/tools/files.py), together with theorems settling the
specification claims about them.

Conventions of the embedding:
- Paths and revisions are Lean Strings; file content is a list of byte
  values (List Nat).
- The filesystem is an association list from path to entry; lookup takes
  the first match and update prepends, so update/lookup laws are
  definitional.
- Python exceptions are an explicit error type; fallible code returns
  Except. An Except.error result mutates nothing, matching Python where
  an exception aborts the function before later writes.
- Logging calls are unobservable and are omitted.
-/

namespace Giza

/-- Errors raised by the embedded Python code. `gitError` wraps the
underlying error object, as `raise GitError(e)` does in giza/core/git.py. -/
inductive PyError where
  | fileOperationError (msg : String)
  | commandError (cmd out err : String)
  | gitError (inner : PyError)
  | osError (path : String)
  | attributeError (msg : String)
  | typeError (msg : String)
  | indexError (msg : String)
deriving DecidableEq, Repr

/-- Strips trailing slash characters, as Python's `head.rstrip('/')`. -/
def rstripSlashes (cs : List Char) : List Char :=
  (cs.reverse.dropWhile (fun c => c = '/')).reverse

/-- Python `os.path.split`: splits at the last '/', the head keeping no
trailing slashes unless it consists only of slashes. -/
def os_path_split (p : String) : String × String :=
  let rcs := p.data.reverse
  let tail := (rcs.takeWhile (fun c => c ≠ '/')).reverse
  let head := (rcs.dropWhile (fun c => c ≠ '/')).reverse
  let head2 := if head.all (fun c => c = '/') then head else rstripSlashes head
  (String.mk head2, String.mk tail)

/-- Python `os.path.dirname`. -/
def os_path_dirname (p : String) : String := (os_path_split p).1

/-- Python `os.path.basename`. -/
def os_path_basename (p : String) : String := (os_path_split p).2

/-- Python `s.startswith(c)` for string arguments, computed on the
character lists so it reduces. -/
def pyStartsWith (s c : String) : Bool := c.data.isPrefixOf s.data

/- ### Git layer: giza/core/git.py -/

/-- Captured output of a subprocess invocation, as returned by
`giza.tools.command.command(..., capture=True)`. -/
structure CommandOutput where
  out : String
  err : String
deriving DecidableEq, Repr

/-- Observed behaviour of one underlying subprocess execution: its exit
status and captured streams. Supplied as input to the embedding because
the subprocess itself is outside the program. -/
structure CommandBehavior where
  out : String
  err : String
  exitCode : Nat
deriving DecidableEq, Repr

/-- Modelled from the spec: `giza.tools.command.command` (module
giza/tools/command.py is not part of the sources here; §4.2 of the design
describes it: every operation is a blocking call to the version-control
client, and a non-zero exit status is translated to a typed failure
carrying the command and captured diagnostic output). The Nat component
counts subprocess executions performed: exactly one per call. -/
def command (cmdStr : String) (beh : CommandBehavior) :
    Except PyError CommandOutput × Nat :=
  (if beh.exitCode = 0 then Except.ok ⟨beh.out, beh.err⟩
   else Except.error (PyError.commandError cmdStr beh.out beh.err), 1)

/-- `GitRepo.cmd` from giza/core/git.py: joins the argument words, runs
`cd <path> ; git <args>` with capture, and re-raises any CommandError
wrapped as GitError. The Nat component is the number of subprocess
executions (no internal retry). -/
def GitRepo.cmd (path : String) (args : List String) (beh : CommandBehavior) :
    Except PyError CommandOutput × Nat :=
  let joined := " ".intercalate args
  let r := command ("cd " ++ path ++ " ; git " ++ joined) beh
  (match r.1 with
   | Except.ok o => Except.ok o
   | Except.error e => Except.error (PyError.gitError e), r.2)

/-- One git operation performed by the synchronizer, recorded with the
directory the `GitRepo` object is bound to (`self.path`). Each constructor
corresponds to one `GitRepo` method call in giza/core/git.py:
`pull d r b` is `cmd('pull', r, b)` run in `d`;
`checkout d ref` is `cmd('checkout', ref)`;
`clone d remote br rp` is `cmd('clone', remote [, '--branch', br] [, rp])`;
`revParse d ref` is `cmd('rev-parse', '--verify', ref)` (the `sha` method);
`symbolicRef d` is `cmd('symbolic-ref', 'HEAD')` (the `current_branch`
method). -/
inductive GitOp where
  | pull (dir remote branch : String)
  | checkout (dir ref : String)
  | clone (dir remote : String) (branchArg repoPathArg : Option String)
  | revParse (dir ref : String)
  | symbolicRef (dir : String)
deriving DecidableEq, Repr

/-- Whether the operation mutates version-control state. `rev-parse` and
`symbolic-ref` are read-only queries. -/
def GitOp.isMutating : GitOp → Bool
  | .pull _ _ _ => true
  | .checkout _ _ => true
  | .clone _ _ _ _ => true
  | .revParse _ _ => false
  | .symbolicRef _ => false

/-- Whether the operation is a pull. -/
def GitOp.isPull : GitOp → Bool
  | .pull _ _ _ => true
  | _ => false

/-- External state observed by `assets_setup`: whether `os.path.exists`
holds of the asset path, and the revision `git rev-parse --verify HEAD`
reports when run in a given directory (the filesystem does not change
between the sha queries of one call, so the observation is a function of
the directory). -/
structure SyncEnv where
  pathExists : Bool
  sha : String → String

/-- `assets_setup` from giza/content/assets.py, translated line by line.
The result is the ordered list of git operations performed and the
exception the call raises, if any.

Existing-path branch: `commit is None` gives `g.pull(branch=branch)`
(GitRepo.pull defaults remote to 'origin'); otherwise
`g.sha() == commit or g.sha().startswith(commit)` queries the sha once
when the equality already holds and twice otherwise, and checks out the
commit only when neither disjunct holds.

Missing-path branch: `base, name = os.path.split(path)`, `g = GitRepo(base)`,
then `g.clone(repo, repo_path=name, branch=branch)`; afterwards the source
evaluates `commit is not None and g.sha() == commit or g.sha().startswith(commit)`,
which Python parses as `(commit is not None and g.sha() == commit) or
g.sha().startswith(commit)`. With `commit = None` the left disjunct is
False, so `g.sha().startswith(None)` runs: one sha query, then a
TypeError. With a commit, the condition short-circuits after one sha
query when the sha equals the commit, and the checkout is performed
exactly when the sha equals or starts with the commit. All operations of
this branch run in `base`, since `g` is bound to the parent directory. -/
def assets_setup (env : SyncEnv) (path branch repo : String)
    (commit : Option String) : List GitOp × Option PyError :=
  if env.pathExists then
    match commit with
    | none => ([GitOp.pull path "origin" branch], none)
    | some c =>
        if env.sha path = c then
          ([GitOp.revParse path "HEAD"], none)
        else if pyStartsWith (env.sha path) c then
          ([GitOp.revParse path "HEAD", GitOp.revParse path "HEAD"], none)
        else
          ([GitOp.revParse path "HEAD", GitOp.revParse path "HEAD",
            GitOp.checkout path c], none)
  else
    let base := (os_path_split path).1
    let name := (os_path_split path).2
    let cloneOp := GitOp.clone base repo (some branch) (some name)
    match commit with
    | none =>
        ([cloneOp, GitOp.revParse base "HEAD"],
         some (PyError.typeError
           "startswith first arg must be str or a tuple of str, not NoneType"))
    | some c =>
        if env.sha base = c then
          ([cloneOp, GitOp.revParse base "HEAD", GitOp.checkout base c], none)
        else if pyStartsWith (env.sha base) c then
          ([cloneOp, GitOp.revParse base "HEAD", GitOp.revParse base "HEAD",
            GitOp.checkout base c], none)
        else
          ([cloneOp, GitOp.revParse base "HEAD", GitOp.revParse base "HEAD"],
           none)

/-- Outcome of the body of a `with g.branch(name):` block: it either
completes or raises. -/
inductive BodyOutcome where
  | ok
  | raises (e : PyError)
deriving DecidableEq, Repr

/-- The `GitRepo.branch` context manager from giza/core/git.py, run to
completion around a body with the given outcome, in a repository whose
`current_branch()` reports `startingBranch`. The generator first queries
the current branch, checks out `name` when it differs, and yields; the
yield is not inside a try/finally, so when the body raises, the exception
is thrown into the generator at the yield point and the restoring
checkout after the yield never runs. On normal completion the starting
branch is checked out again when it differs from `name`. -/
def GitRepo.branch (dir name startingBranch : String) (body : BodyOutcome) :
    List GitOp × Option PyError :=
  let pre : List GitOp :=
    if name ≠ startingBranch then
      [GitOp.symbolicRef dir, GitOp.checkout dir name]
    else
      [GitOp.symbolicRef dir]
  match body with
  | .raises e => (pre, some e)
  | .ok =>
      if name ≠ startingBranch then
        (pre ++ [GitOp.checkout dir startingBranch], none)
      else
        (pre, none)

/- ### File layer: giza/tools/files.py -/

/-- A filesystem entry: a regular file with its byte content, a
directory, or a symbolic link with its target string. -/
inductive Entry where
  | file (content : List Nat)
  | dir
  | symlink (target : String)
deriving DecidableEq, Repr

/-- The filesystem: an association list from path to entry. Lookup takes
the first match; updates prepend. Symbolic-link resolution (a link
standing in for the file it points to) is not modelled; the theorems
that depend on a path's kind state it on the entry directly. -/
abbrev FS := List (String × Entry)

/-- First-match lookup of a path. -/
def FS.lookup (fs : FS) (p : String) : Option Entry :=
  match fs with
  | [] => none
  | (q, e) :: rest => if q = p then some e else FS.lookup rest p

/-- Set the entry at a path (prepend; lookup sees the new binding). -/
def FS.set (fs : FS) (p : String) (e : Entry) : FS := (p, e) :: fs

/-- Remove every binding of a path. -/
def FS.remove (fs : FS) (p : String) : FS :=
  fs.filter (fun q => decide (q.1 ≠ p))

/-- Python `os.path.exists`. -/
def os_path_exists (fs : FS) (p : String) : Bool := (fs.lookup p).isSome

/-- Python `os.path.isdir`. -/
def os_path_isdir (fs : FS) (p : String) : Bool :=
  match fs.lookup p with
  | some Entry.dir => true
  | _ => false

/-- Python `os.path.isfile` (on non-link entries; link-following is not
modelled). -/
def os_path_isfile (fs : FS) (p : String) : Bool :=
  match fs.lookup p with
  | some (Entry.file _) => true
  | _ => false

/-- Python `os.path.islink`. -/
def os_path_islink (fs : FS) (p : String) : Bool :=
  match fs.lookup p with
  | some (Entry.symlink _) => true
  | _ => false

/-- Python `os.makedirs`: raises OSError when the path already exists
(FileExistsError) or is the empty string (FileNotFoundError); otherwise
creates the directory. Creation of intermediate parent directories is
not observed by any claim and is not tracked. -/
def os_makedirs (fs : FS) (p : String) : Except PyError FS :=
  if p = "" then Except.error (PyError.osError p)
  else
    match fs.lookup p with
    | some _ => Except.error (PyError.osError p)
    | none => Except.ok (fs.set p Entry.dir)

/-- `safe_create_directory` from giza/tools/files.py. On success of
`os.makedirs` it returns True; when makedirs raises OSError and the path
is a directory it returns None; otherwise the source's next line is
`elif os.path.isfie(path):`, and the module `os.path` has no attribute
`isfie`, so evaluating the condition raises AttributeError and the
`raise e` branches are unreachable. The result pairs the filesystem with
the Python return value (`some true` for True, `none` for None). -/
def safe_create_directory (fs : FS) (p : String) :
    Except PyError (FS × Option Bool) :=
  match os_makedirs fs p with
  | Except.ok fs2 => Except.ok (fs2, some true)
  | Except.error _ =>
      if os_path_isdir fs p then Except.ok (fs, none)
      else Except.error
        (PyError.attributeError "module os.path has no attribute isfie")

/-- `md5_file` from giza/tools/files.py reads the file in blocks and
returns the hex digest of its bytes; opening a missing path or a
directory raises OSError. The digest is a function of the content alone,
and the development models it as the content itself (a collision-free
fingerprint); no file metadata, in particular no modification time,
enters the computation. -/
def md5_file (fs : FS) (p : String) : Except PyError (List Nat) :=
  match fs.lookup p with
  | some (Entry.file c) => Except.ok c
  | _ => Except.error (PyError.osError p)

/-- Python `shutil.copyfile`: reads the source file's bytes and writes
them to the target path; fails when the source is not a readable file or
the target is an existing directory. -/
def shutil_copyfile (fs : FS) (src dst : String) : Except PyError FS :=
  match fs.lookup src with
  | some (Entry.file c) =>
      match fs.lookup dst with
      | some Entry.dir => Except.error (PyError.osError dst)
      | _ => Except.ok (fs.set dst (Entry.file c))
  | _ => Except.error (PyError.osError src)

/-- `copy_always` from giza/tools/files.py: when the source is not a
regular file it raises FileOperationError with the formatted message;
otherwise it ensures the target's dirname with `safe_create_directory`
and copies unconditionally. -/
def copy_always (fs : FS) (source_file target_file name : String) :
    Except PyError FS :=
  if os_path_isfile fs source_file = false then
    Except.error (PyError.fileOperationError
      (name ++ ": Input file '" ++ source_file ++ "' does not exist."))
  else
    match safe_create_directory fs (os_path_dirname target_file) with
    | Except.error e => Except.error e
    | Except.ok r => shutil_copyfile r.1 source_file target_file

/-- `copy_if_needed` from giza/tools/files.py: raises FileOperationError
when the source is not a regular file or is a directory; when the target
is not a regular file it ensures the target's dirname and copies; when
both are files it compares `md5_file` digests and copies only on
mismatch, doing nothing when they agree. -/
def copy_if_needed (fs : FS) (source_file target_file name : String) :
    Except PyError FS :=
  if os_path_isfile fs source_file = false ∨ os_path_isdir fs source_file = true then
    Except.error (PyError.fileOperationError
      (name ++ ": Input file '" ++ source_file ++ "' does not exist."))
  else if os_path_isfile fs target_file = false then
    match safe_create_directory fs (os_path_dirname target_file) with
    | Except.error e => Except.error e
    | Except.ok r => shutil_copyfile r.1 source_file target_file
  else
    match md5_file fs source_file, md5_file fs target_file with
    | Except.error e, _ => Except.error e
    | _, Except.error e => Except.error e
    | Except.ok h1, Except.ok h2 =>
        if h1 = h2 then Except.ok fs
        else shutil_copyfile fs source_file target_file

/-- The `symlink` helper from giza/tools/files.py: when `name` is not
already a symbolic link it calls `os.symlink(target, name)`, which
raises OSError (FileExistsError) when `name` exists; when `name` is
already a link the call is skipped entirely. The Windows fallback
branches (AttributeError/ImportError handlers) do not arise on a
platform providing `os.symlink` and are not modelled. -/
def symlink (fs : FS) (name target : String) : Except PyError FS :=
  if os_path_islink fs name then Except.ok fs
  else
    match fs.lookup name with
    | some _ => Except.error (PyError.osError name)
    | none => Except.ok (fs.set name (Entry.symlink target))

/-- Python `os.rename`: moves the entry at `src` to `dst`. -/
def os_rename (fs : FS) (src dst : String) : Except PyError FS :=
  match fs.lookup src with
  | none => Except.error (PyError.osError src)
  | some e => Except.ok ((fs.remove src).set dst e)

/-- `create_link` from giza/tools/files.py: ensures the output dirname
when non-empty; removes the output path when it is a symbolic link; when
it is a directory, the source builds the conflict message with
str.format referencing positional index 1 while supplying a single
argument, so str.format raises IndexError before the FileOperationError
line is reached; when it otherwise exists, raises FileOperationError;
then derives the leaf name, failing with FileOperationError when it is
empty, and otherwise creates the link at the leaf name (relative to the
working directory) and renames it onto the output path. -/
def create_link (fs : FS) (input_fn output_fn : String) :
    Except PyError FS :=
  let out_dirname := os_path_dirname output_fn
  let step1 : Except PyError FS :=
    if out_dirname ≠ "" then
      match safe_create_directory fs out_dirname with
      | Except.error e => Except.error e
      | Except.ok r => Except.ok r.1
    else Except.ok fs
  match step1 with
  | Except.error e => Except.error e
  | Except.ok fs1 =>
    let step2 : Except PyError FS :=
      if os_path_islink fs1 output_fn then
        Except.ok (fs1.remove output_fn)
      else if os_path_isdir fs1 output_fn then
        Except.error (PyError.indexError
          "Replacement index 1 out of range for positional args tuple")
      else if os_path_exists fs1 output_fn then
        Except.error (PyError.fileOperationError
          ("could not create a symlink at " ++ output_fn ++ "."))
      else Except.ok fs1
    match step2 with
    | Except.error e => Except.error e
    | Except.ok fs2 =>
      let out_base := os_path_basename output_fn
      if out_base = "" then
        Except.error (PyError.fileOperationError
          ("could not create a symlink at " ++ output_fn ++ "."))
      else
        match symlink fs2 out_base input_fn with
        | Except.error e => Except.error e
        | Except.ok fs3 => os_rename fs3 out_base output_fn

/- ### Helper lemmas -/

/-- A path reported as a directory has a directory entry. -/
lemma isdir_lookup {fs : FS} {p : String} (h : os_path_isdir fs p = true) :
    FS.lookup fs p = some Entry.dir := by
  unfold os_path_isdir at h
  split at h
  · assumption
  · simp at h

/-- An existing path has some entry. -/
lemma exists_lookup {fs : FS} {p : String} (h : os_path_exists fs p = true) :
    ∃ e, FS.lookup fs p = some e := by
  unfold os_path_exists at h
  cases hl : FS.lookup fs p with
  | none => rw [hl] at h; simp at h
  | some e => exact ⟨e, rfl⟩

/-- safe_create_directory on an existing directory returns None. -/
lemma safe_create_on_dir {fs : FS} {p : String}
    (h : FS.lookup fs p = some Entry.dir) :
    safe_create_directory fs p = Except.ok (fs, none) := by
  by_cases hp : p = ""
  · subst hp
    simp [safe_create_directory, os_makedirs, os_path_isdir, h]
  · simp [safe_create_directory, os_makedirs, os_path_isdir, hp, h]

/-- safe_create_directory on an absent, non-empty path creates it. -/
lemma safe_create_on_absent {fs : FS} {p : String} (hp : p ≠ "")
    (h : FS.lookup fs p = none) :
    safe_create_directory fs p = Except.ok (fs.set p Entry.dir, some true) := by
  simp [safe_create_directory, os_makedirs, hp, h]

/-- The only error safe_create_directory can raise is the AttributeError
from the misspelled attribute access. -/
lemma safe_create_error_kind {fs : FS} {p : String} {e : PyError}
    (h : safe_create_directory fs p = Except.error e) :
    e = PyError.attributeError "module os.path has no attribute isfie" := by
  unfold safe_create_directory at h
  split at h
  · simp at h
  · split at h
    · simp at h
    · exact (Except.error.inj h).symm

/-- shutil_copyfile never raises FileOperationError. -/
lemma shutil_copyfile_not_fileop {fs : FS} {src dst : String} {m : String} :
    shutil_copyfile fs src dst ≠ Except.error (PyError.fileOperationError m) := by
  unfold shutil_copyfile
  split
  · split
    · intro h
      exact PyError.noConfusion (Except.error.inj h)
    · intro h
      exact Except.noConfusion h
  · intro h
    exact PyError.noConfusion (Except.error.inj h)

/-- md5_file never raises FileOperationError. -/
lemma md5_file_not_fileop {fs : FS} {p : String} {m : String} :
    md5_file fs p ≠ Except.error (PyError.fileOperationError m) := by
  unfold md5_file
  split
  · intro h
    exact Except.noConfusion h
  · intro h
    exact PyError.noConfusion (Except.error.inj h)

/-- Lookup after set. -/
lemma lookup_set (fs : FS) (p q : String) (e : Entry) :
    FS.lookup (fs.set p e) q = if p = q then some e else FS.lookup fs q := rfl

/-- Lookup after remove. -/
lemma lookup_remove (fs : FS) (p q : String) :
    FS.lookup (fs.remove p) q = if q = p then none else FS.lookup fs q := by
  induction fs with
  | nil => simp [FS.remove, FS.lookup]
  | cons a tl ih =>
      obtain ⟨ap, ae⟩ := a
      by_cases hap : ap = p
      · have hrm : FS.remove ((ap, ae) :: tl) p = FS.remove tl p := by
          simp [FS.remove, List.filter_cons, hap]
        rw [hrm, ih]
        by_cases hq : q = p
        · simp [hq]
        · have hne : ¬ ap = q := by
            rw [hap]
            intro hh
            exact hq hh.symm
          simp [hq, FS.lookup, hne]
      · have hrm : FS.remove ((ap, ae) :: tl) p = (ap, ae) :: FS.remove tl p := by
          simp [FS.remove, List.filter_cons, hap]
        rw [hrm]
        by_cases haq : ap = q
        · subst haq
          simp [FS.lookup, hap]
        · simp [FS.lookup, haq, ih]

/-- A path reported as a regular file has a file entry. -/
lemma isfile_lookup {fs : FS} {p : String} (h : os_path_isfile fs p = true) :
    ∃ c, FS.lookup fs p = some (Entry.file c) := by
  unfold os_path_isfile at h
  split at h
  · rename_i c heq
    exact ⟨c, heq⟩
  · simp at h

/- ### Theorems for the claims -/

/-- Claim C9: for every path, if directory creation is attempted and the
directory already exists — in particular when os.makedirs itself fails
because the directory is already present — safe_create_directory returns
(Python value None) without raising an error. -/
theorem safe_create_directory_existing_dir_ok (fs : FS) (p : String)
    (h : os_path_isdir fs p = true) :
    safe_create_directory fs p = Except.ok (fs, none) :=
  safe_create_on_dir (isdir_lookup h)

/-- Witness for C9 at a concrete state. -/
theorem safe_create_directory_existing_dir_ok_witness :
    os_path_isdir [("d", Entry.dir)] "d" = true ∧
    safe_create_directory [("d", Entry.dir)] "d" =
      Except.ok ([("d", Entry.dir)], none) :=
  ⟨by decide, safe_create_directory_existing_dir_ok [("d", Entry.dir)] "d" (by decide)⟩

/-- Claim C10: when os.makedirs raises OSError and the path is not an
existing directory (e.g. it exists as a regular file), safe_create_directory
raises AttributeError from the misspelled call os.path.isfie, not the
original OSError. -/
theorem safe_create_directory_attribute_error (fs : FS) (p : String)
    (hex : os_path_exists fs p = true) (hnd : os_path_isdir fs p = false) :
    safe_create_directory fs p =
      Except.error (PyError.attributeError
        "module os.path has no attribute isfie") := by
  obtain ⟨e, he⟩ := exists_lookup hex
  by_cases hp : p = ""
  · subst hp
    simp [safe_create_directory, os_makedirs, he, hnd]
  · simp [safe_create_directory, os_makedirs, hp, he, hnd]

/-- Witness for C10: the path exists as a regular file. -/
theorem safe_create_directory_attribute_error_witness :
    os_path_exists [("f", Entry.file [1])] "f" = true ∧
    os_path_isdir [("f", Entry.file [1])] "f" = false ∧
    safe_create_directory [("f", Entry.file [1])] "f" =
      Except.error (PyError.attributeError
        "module os.path has no attribute isfie") :=
  ⟨by decide, by decide,
   safe_create_directory_attribute_error [("f", Entry.file [1])] "f"
     (by decide) (by decide)⟩

/-- Claim C8: a non-zero exit status of the underlying git client makes
GitRepo.cmd raise GitError wrapping the CommandError that carries the
attempted command line and its captured output, after exactly one
subprocess execution (no internal retry). -/
theorem gitrepo_cmd_failure_wraps (path : String) (args : List String)
    (beh : CommandBehavior) (h : beh.exitCode ≠ 0) :
    GitRepo.cmd path args beh =
      (Except.error (PyError.gitError (PyError.commandError
        ("cd " ++ path ++ " ; git " ++ " ".intercalate args)
        beh.out beh.err)), 1) := by
  simp [GitRepo.cmd, command, h]

/-- Witness for C8 at a concrete failing invocation. -/
theorem gitrepo_cmd_failure_wraps_witness :
    (⟨"", "fatal: not a git repository", 128⟩ : CommandBehavior).exitCode ≠ 0 ∧
    GitRepo.cmd "repos/docs" ["pull", "origin", "master"]
        ⟨"", "fatal: not a git repository", 128⟩ =
      (Except.error (PyError.gitError (PyError.commandError
        "cd repos/docs ; git pull origin master"
        "" "fatal: not a git repository")), 1) :=
  ⟨by decide,
   gitrepo_cmd_failure_wraps "repos/docs" ["pull", "origin", "master"]
     ⟨"", "fatal: not a git repository", 128⟩ (by decide)⟩

/-- Claim C5 (code bug, concrete run): when the scoped body raises while
the repository was switched from "master" to "feature", the GitRepo.branch
context manager propagates the exception without performing the restoring
checkout of "master" — the operation list ends at the checkout of
"feature", so the original branch is not restored on this exit path. -/
theorem branch_scope_no_restore_on_raise :
    GitRepo.branch "repos/docs" "feature" "master"
        (BodyOutcome.raises (PyError.gitError
          (PyError.commandError "cd repos/docs ; git merge other" "" "conflict"))) =
      ([GitOp.symbolicRef "repos/docs", GitOp.checkout "repos/docs" "feature"],
       some (PyError.gitError
         (PyError.commandError "cd repos/docs ; git merge other" "" "conflict"))) := by
  decide

/-- Claim C1 (code bug, concrete runs of the missing-path branch):
first, with no pinned revision the call does not complete cleanly after
the clone — it performs the clone, queries the head revision, and raises
TypeError because the source evaluates `g.sha().startswith(None)`;
second, with a pinned revision that the post-clone head already satisfies
(head "abc123def456" pinned to "abc123def") a checkout is performed even
though the claim requires none; third, with a pinned revision the head
does not satisfy (head "cafebabe" pinned to "deadbeef") no checkout is
performed even though the claim requires one. -/
theorem assets_setup_clone_pin_bug :
    (assets_setup ⟨false, fun _ => "abc123def456"⟩ "repos/docs" "master" "url" none =
      ([GitOp.clone "repos" "url" (some "master") (some "docs"),
        GitOp.revParse "repos" "HEAD"],
       some (PyError.typeError
         "startswith first arg must be str or a tuple of str, not NoneType"))) ∧
    (GitOp.checkout "repos" "abc123def" ∈
      (assets_setup ⟨false, fun _ => "abc123def456"⟩ "repos/docs" "master" "url"
        (some "abc123def")).1) ∧
    ((assets_setup ⟨false, fun _ => "cafebabe"⟩ "repos/docs" "master" "url"
        (some "deadbeef")).1 =
      [GitOp.clone "repos" "url" (some "master") (some "docs"),
       GitOp.revParse "repos" "HEAD", GitOp.revParse "repos" "HEAD"]) :=
  ⟨by decide, by decide, by decide⟩

/-- Claim C6: a pull is performed exactly when the local path exists and
no pinned revision is declared, and then exactly once; with a pin, or on
the clone path, no pull ever occurs. -/
theorem assets_setup_pull_iff (env : SyncEnv) (path branch repo : String)
    (commit : Option String) :
    ((assets_setup env path branch repo commit).1.countP GitOp.isPull) =
      if env.pathExists = true ∧ commit = none then 1 else 0 := by
  obtain ⟨pe, shaf⟩ := env
  cases pe <;> cases commit <;>
    simp [assets_setup, GitOp.isPull] <;>
    split_ifs <;>
    simp [GitOp.isPull]

/-- Claim C2: when the local path exists and a revision is pinned, the
call performs no mutating operation when the current revision equals the
pin or starts with it (short-hash tolerance: pin "abc123def" with current
"abc123def456" is satisfied) — only read-only sha queries occur and no
error is raised — and otherwise the performed operations are exactly two
sha queries followed by a checkout of the pinned revision. -/
theorem assets_setup_pinned_existing (env : SyncEnv)
    (path branch repo c : String) (hex : env.pathExists = true) :
    ((env.sha path = c ∨ pyStartsWith (env.sha path) c = true) →
      (assets_setup env path branch repo (some c)).2 = none ∧
      ∀ op ∈ (assets_setup env path branch repo (some c)).1,
        op.isMutating = false) ∧
    (env.sha path ≠ c → pyStartsWith (env.sha path) c = false →
      (assets_setup env path branch repo (some c)).1 =
        [GitOp.revParse path "HEAD", GitOp.revParse path "HEAD",
         GitOp.checkout path c]) := by
  constructor
  · rintro (h | h)
    · simp [assets_setup, hex, h, GitOp.isMutating]
    · by_cases he : env.sha path = c
      · simp [assets_setup, hex, he, GitOp.isMutating]
      · simp [assets_setup, hex, he, h, GitOp.isMutating]
  · intro h1 h2
    simp [assets_setup, hex, h1, h2]

/-- Witness for C2 at a concrete unmet pin: current "cafebabe", pinned
"deadbeef", so a checkout of the pin is performed. -/
theorem assets_setup_pinned_existing_witness :
    (⟨true, fun _ => "cafebabe"⟩ : SyncEnv).pathExists = true ∧
    (assets_setup ⟨true, fun _ => "cafebabe"⟩ "repos/docs" "master" "url"
        (some "deadbeef")).1 =
      [GitOp.revParse "repos/docs" "HEAD", GitOp.revParse "repos/docs" "HEAD",
       GitOp.checkout "repos/docs" "deadbeef"] :=
  ⟨rfl,
   (assets_setup_pinned_existing ⟨true, fun _ => "cafebabe"⟩ "repos/docs"
       "master" "url" "deadbeef" rfl).2 (by decide) (by decide)⟩

/-- Claim C3: for source and target both existing regular files,
copy_if_needed decides by content fingerprint (the md5 digest, a function
of the bytes alone — the filesystem model carries no modification
times): identical content performs zero writes (the state is returned
unchanged), and differing content rewrites the target so that its
content equals the source's content. -/
theorem copy_if_needed_content_decision (fs : FS) (s t n : String)
    (cs ct : List Nat)
    (hs : FS.lookup fs s = some (Entry.file cs))
    (ht : FS.lookup fs t = some (Entry.file ct)) :
    (cs = ct → copy_if_needed fs s t n = Except.ok fs) ∧
    (cs ≠ ct →
      copy_if_needed fs s t n = Except.ok (fs.set t (Entry.file cs)) ∧
      FS.lookup (fs.set t (Entry.file cs)) t = some (Entry.file cs)) := by
  have hsf : os_path_isfile fs s = true := by simp [os_path_isfile, hs]
  have hsd : os_path_isdir fs s = false := by simp [os_path_isdir, hs]
  have htf : os_path_isfile fs t = true := by simp [os_path_isfile, ht]
  constructor
  · intro hct
    subst hct
    simp [copy_if_needed, hsf, hsd, htf, md5_file, hs, ht]
  · intro hne
    constructor
    · by_cases hts : t = s
      · subst hts
        rw [hs] at ht
        exact absurd (Entry.file.inj (Option.some.inj ht)) hne
      · simp [copy_if_needed, hsf, hsd, htf, md5_file, shutil_copyfile,
              hs, ht, hne]
    · simp [lookup_set]

/-- Witness for C3 at concrete differing contents. -/
theorem copy_if_needed_content_decision_witness :
    FS.lookup [("s", Entry.file [1]), ("t", Entry.file [2])] "s" =
      some (Entry.file [1]) ∧
    copy_if_needed [("s", Entry.file [1]), ("t", Entry.file [2])] "s" "t" "build" =
      Except.ok (FS.set [("s", Entry.file [1]), ("t", Entry.file [2])] "t"
        (Entry.file [1])) :=
  ⟨rfl,
   ((copy_if_needed_content_decision
       [("s", Entry.file [1]), ("t", Entry.file [2])] "s" "t" "build"
       [1] [2] rfl rfl).2 (by decide)).1⟩

/-- Claim C7 counterexample: with source "s" a regular file and target
"t" absent, the claim predicts parent-tolerant directory creation
followed by a copy; instead both functions raise AttributeError, because
the target's directory component is the empty string, os.makedirs('')
raises OSError, and safe_create_directory then evaluates the misspelled
os.path.isfie. -/
theorem copy_bare_target_counterexample :
    copy_if_needed [("s", Entry.file [1])] "s" "t" "build" =
      Except.error (PyError.attributeError
        "module os.path has no attribute isfie") ∧
    copy_always [("s", Entry.file [1])] "s" "t" "build" =
      Except.error (PyError.attributeError
        "module os.path has no attribute isfie") :=
  ⟨rfl, rfl⟩

/-- Claim C7 as amended: a FileOperationError is raised exactly when the
source is absent or a directory (and then both functions perform no
write, returning the MissingSource message); when the source is a
regular file, the target is absent, and the target's directory component
is nonempty, distinct from the target, and either absent or an existing
directory, the parent directory is ensured (tolerating the pre-existing
one) and both functions copy, leaving the target's content equal to the
source's. A target whose directory component is empty or exists as a
non-directory instead fails with the AttributeError of the
directory-creation helper. -/
theorem copy_missing_source_and_creation (fs : FS) (s t n : String)
    (hns : ∀ x, FS.lookup fs s ≠ some (Entry.symlink x)) :
    (∀ m, copy_if_needed fs s t n =
        Except.error (PyError.fileOperationError m) →
      FS.lookup fs s = none ∨ FS.lookup fs s = some Entry.dir) ∧
    (∀ m, copy_always fs s t n =
        Except.error (PyError.fileOperationError m) →
      FS.lookup fs s = none ∨ FS.lookup fs s = some Entry.dir) ∧
    ((FS.lookup fs s = none ∨ FS.lookup fs s = some Entry.dir) →
      copy_if_needed fs s t n = Except.error (PyError.fileOperationError
        (n ++ ": Input file '" ++ s ++ "' does not exist.")) ∧
      copy_always fs s t n = Except.error (PyError.fileOperationError
        (n ++ ": Input file '" ++ s ++ "' does not exist."))) ∧
    (∀ cs, FS.lookup fs s = some (Entry.file cs) → FS.lookup fs t = none →
      os_path_dirname t ≠ "" → t ≠ os_path_dirname t →
      (FS.lookup fs (os_path_dirname t) = none ∨
        FS.lookup fs (os_path_dirname t) = some Entry.dir) →
      ∃ fs2, copy_if_needed fs s t n = Except.ok fs2 ∧
        copy_always fs s t n = Except.ok fs2 ∧
        FS.lookup fs2 t = some (Entry.file cs) ∧
        FS.lookup fs2 (os_path_dirname t) = some Entry.dir) := by
  refine ⟨?_, ?_, ?_, ?_⟩
  · intro m hm
    cases hls : FS.lookup fs s with
    | none => exact Or.inl rfl
    | some e =>
        cases e with
        | dir => exact Or.inr rfl
        | symlink x => exact absurd hls (hns x)
        | file cs =>
            exfalso
            have hsf : os_path_isfile fs s = true := by
              simp [os_path_isfile, hls]
            have hsd : os_path_isdir fs s = false := by
              simp [os_path_isdir, hls]
            unfold copy_if_needed at hm
            rw [hsf, hsd] at hm
            simp only [Bool.true_eq_false, Bool.false_eq_true, or_self,
              if_false] at hm
            by_cases htf : os_path_isfile fs t = false
            · rw [if_pos htf] at hm
              split at hm
              · rename_i e heq
                have hk := safe_create_error_kind heq
                have h2 := Except.error.inj hm
                rw [hk] at h2
                exact PyError.noConfusion h2
              · exact shutil_copyfile_not_fileop hm
            · rw [if_neg htf] at hm
              have htt : os_path_isfile fs t = true := by
                cases h : os_path_isfile fs t
                · exact absurd h htf
                · rfl
              obtain ⟨ct, hct⟩ := isfile_lookup htt
              rw [show md5_file fs s = Except.ok cs by simp [md5_file, hls],
                  show md5_file fs t = Except.ok ct by simp [md5_file, hct]]
                at hm
              simp only [] at hm
              split at hm
              · simp at hm
              · exact shutil_copyfile_not_fileop hm
  · intro m hm
    cases hls : FS.lookup fs s with
    | none => exact Or.inl rfl
    | some e =>
        cases e with
        | dir => exact Or.inr rfl
        | symlink x => exact absurd hls (hns x)
        | file cs =>
            exfalso
            have hsf : os_path_isfile fs s = true := by
              simp [os_path_isfile, hls]
            unfold copy_always at hm
            rw [hsf] at hm
            simp only [Bool.true_eq_false, if_false] at hm
            split at hm
            · rename_i e heq
              have hk := safe_create_error_kind heq
              have h2 := Except.error.inj hm
              rw [hk] at h2
              exact PyError.noConfusion h2
            · exact shutil_copyfile_not_fileop hm
  · intro hmiss
    have hsf : os_path_isfile fs s = false := by
      rcases hmiss with h | h <;> simp [os_path_isfile, h]
    constructor
    · simp [copy_if_needed, hsf]
    · simp [copy_always, hsf]
  · intro cs hcs hlt hdne htne hdd
    have hsf : os_path_isfile fs s = true := by simp [os_path_isfile, hcs]
    have hsd : os_path_isdir fs s = false := by simp [os_path_isdir, hcs]
    have htf : os_path_isfile fs t = false := by simp [os_path_isfile, hlt]
    have hdt : ¬ os_path_dirname t = t := fun hh => htne hh.symm
    rcases hdd with hnone | hdir
    · have hsc := safe_create_on_absent hdne hnone
      have hds : ¬ os_path_dirname t = s := by
        intro hh
        rw [hh, hcs] at hnone
        exact Option.noConfusion hnone
      have h1 : FS.lookup (fs.set (os_path_dirname t) Entry.dir) s =
          some (Entry.file cs) := by
        rw [lookup_set, if_neg hds, hcs]
      have h2 : FS.lookup (fs.set (os_path_dirname t) Entry.dir) t = none := by
        rw [lookup_set, if_neg hdt, hlt]
      have hcalc : shutil_copyfile (fs.set (os_path_dirname t) Entry.dir) s t =
          Except.ok ((fs.set (os_path_dirname t) Entry.dir).set t
            (Entry.file cs)) := by
        simp [shutil_copyfile, h1, h2]
      refine ⟨(fs.set (os_path_dirname t) Entry.dir).set t (Entry.file cs),
        ?_, ?_, ?_, ?_⟩
      · simp [copy_if_needed, hsf, hsd, htf, hsc, hcalc]
      · simp [copy_always, hsf, hsc, hcalc]
      · rw [lookup_set, if_pos rfl]
      · rw [lookup_set, if_neg htne, lookup_set, if_pos rfl]
    · have hsc := safe_create_on_dir hdir
      have hcalc : shutil_copyfile fs s t =
          Except.ok (fs.set t (Entry.file cs)) := by
        simp [shutil_copyfile, hcs, hlt]
      refine ⟨fs.set t (Entry.file cs), ?_, ?_, ?_, ?_⟩
      · simp [copy_if_needed, hsf, hsd, htf, hsc, hcalc]
      · simp [copy_always, hsf, hsc, hcalc]
      · rw [lookup_set, if_pos rfl]
      · rw [lookup_set, if_neg htne, hdir]

/-- Witness for C7 at a concrete missing source. -/
theorem copy_missing_source_and_creation_witness :
    copy_if_needed [("d", Entry.dir)] "s" "d/t" "build" =
      Except.error (PyError.fileOperationError
        "build: Input file 's' does not exist.") ∧
    copy_always [("d", Entry.dir)] "s" "d/t" "build" =
      Except.error (PyError.fileOperationError
        "build: Input file 's' does not exist.") :=
  (copy_missing_source_and_creation [("d", Entry.dir)] "s" "d/t" "build"
    (by intro x h; simp [FS.lookup] at h)).2.2.1 (Or.inl rfl)

/-- Claim C4 counterexample: an existing plain file at the target makes
create_link fail with FileOperationError instead of removing it and
succeeding; and an existing directory at the target raises IndexError
(from the malformed message format) rather than a Conflict-kind
FileOperationError. -/
theorem create_link_counterexample :
    create_link [("out", Entry.file [0])] "in" "out" =
      Except.error (PyError.fileOperationError
        "could not create a symlink at out.") ∧
    create_link [("d", Entry.dir), ("d/t", Entry.dir)] "in" "d/t" =
      Except.error (PyError.indexError
        "Replacement index 1 out of range for positional args tuple") :=
  ⟨rfl, rfl⟩

/-- Claim C4 as amended: with the target's directory component empty or
an existing directory, create_link behaves as follows. A target that
exists as a directory fails before the directory is modified, but with
the IndexError str.format raises on the malformed conflict message, not
a Conflict FileOperationError; a target that is an existing symbolic
link is removed first and the link creation succeeds, leaving a link to
the input at the target; a target that is an existing plain file fails
with FileOperationError and is not removed. -/
theorem create_link_amended (fs : FS) (input_fn output_fn : String)
    (hd : os_path_dirname output_fn = "" ∨
      FS.lookup fs (os_path_dirname output_fn) = some Entry.dir) :
    (FS.lookup fs output_fn = some Entry.dir →
      create_link fs input_fn output_fn =
        Except.error (PyError.indexError
          "Replacement index 1 out of range for positional args tuple")) ∧
    (∀ c, FS.lookup fs output_fn = some (Entry.file c) →
      create_link fs input_fn output_fn =
        Except.error (PyError.fileOperationError
          ("could not create a symlink at " ++ output_fn ++ "."))) ∧
    (∀ x, FS.lookup fs output_fn = some (Entry.symlink x) →
      os_path_basename output_fn ≠ "" →
      (FS.lookup fs (os_path_basename output_fn) = none ∨
        os_path_basename output_fn = output_fn) →
      ∃ fs2, create_link fs input_fn output_fn = Except.ok fs2 ∧
        FS.lookup fs2 output_fn = some (Entry.symlink input_fn)) := by
  refine ⟨?_, ?_, ?_⟩
  · intro hdir
    have hil : os_path_islink fs output_fn = false := by
      simp [os_path_islink, hdir]
    have hid : os_path_isdir fs output_fn = true := by
      simp [os_path_isdir, hdir]
    rcases hd with h | h
    · simp [create_link, h, hil, hid]
    · simp [create_link, safe_create_on_dir h, hil, hid]
  · intro c hfile
    have hil : os_path_islink fs output_fn = false := by
      simp [os_path_islink, hfile]
    have hid : os_path_isdir fs output_fn = false := by
      simp [os_path_isdir, hfile]
    have hex : os_path_exists fs output_fn = true := by
      simp [os_path_exists, hfile]
    rcases hd with h | h
    · simp [create_link, h, hil, hid, hex]
    · simp [create_link, safe_create_on_dir h, hil, hid, hex]
  · intro x hsym hbne hbl
    have hil : os_path_islink fs output_fn = true := by
      simp [os_path_islink, hsym]
    have hfs2b : FS.lookup (fs.remove output_fn)
        (os_path_basename output_fn) = none := by
      rw [lookup_remove]
      rcases hbl with h | h
      · by_cases hq : os_path_basename output_fn = output_fn
        · simp [hq]
        · simp [hq, h]
      · simp [h]
    have hsl : symlink (fs.remove output_fn) (os_path_basename output_fn)
        input_fn = Except.ok ((fs.remove output_fn).set
          (os_path_basename output_fn) (Entry.symlink input_fn)) := by
      simp [symlink, os_path_islink, hfs2b]
    have hrn : os_rename ((fs.remove output_fn).set
          (os_path_basename output_fn) (Entry.symlink input_fn))
        (os_path_basename output_fn) output_fn =
        Except.ok (((((fs.remove output_fn).set (os_path_basename output_fn)
          (Entry.symlink input_fn))).remove (os_path_basename output_fn)).set
          output_fn (Entry.symlink input_fn)) := by
      simp [os_rename, lookup_set]
    refine ⟨(((fs.remove output_fn).set (os_path_basename output_fn)
        (Entry.symlink input_fn)).remove (os_path_basename output_fn)).set
        output_fn (Entry.symlink input_fn), ?_, ?_⟩
    · rcases hd with h | h
      · simp [create_link, h, hil, hbne, hsl, hrn]
      · simp [create_link, safe_create_on_dir h, hil, hbne, hsl, hrn]
    · rw [lookup_set, if_pos rfl]

/-- Witness for C4 as amended, at a concrete existing plain file. -/
theorem create_link_amended_witness :
    FS.lookup [("d", Entry.dir), ("d/t", Entry.file [7])] "d/t" =
      some (Entry.file [7]) ∧
    create_link [("d", Entry.dir), ("d/t", Entry.file [7])] "in" "d/t" =
      Except.error (PyError.fileOperationError
        "could not create a symlink at d/t.") :=
  ⟨rfl,
   (create_link_amended [("d", Entry.dir), ("d/t", Entry.file [7])] "in" "d/t"
     (Or.inr rfl)).2.1 [7] rfl⟩

end Giza
